import Mathlib

/-!
Shallow embedding of `src/thread_start_catch.cpp`, a JVMTI agent that watches
the `name` field of `java.lang.Thread` and prints a bounded stack trace when
the field is assigned the compiled-in target string.

Modelling conventions:
- JVM handles (`jclass`, `jmethodID`, `jfieldID`, raw buffer pointers) are
  natural numbers; `0` stands for the null handle / null pointer.
- Host queries are represented by the answers the host gives for the concrete
  event being handled (an `Option` that is `none` on a failing return code).
- Side effects (log lines, watch registrations, deallocation calls, rendered
  output) are collected in explicit effect lists.
- A function returns `none : Option _` when the corresponding C++ execution
  reaches undefined behavior (constructing `std::string` from a NULL
  `const char*`, or inserting a NULL `const char*` into `std::cerr`).
-/

namespace ThreadStartCatch

/-- The compiled-in target entity name: `THREAD_TO_CATCH` is the string
`"HighResTimer"` in the source. -/
def THREAD_TO_CATCH : String := "HighResTimer"

/-- Model of `Holder<T>`: a scoped owner of one host-allocated buffer.
The raw pointer member `ptr_` is a natural number, `0` being `nullptr`
(the default member initializer `ptr_{nullptr}`). -/
structure Holder where
  ptr : Nat
  deriving DecidableEq

/-- `Holder()` — the default constructor leaves `ptr_` at `nullptr`. -/
def Holder.empty : Holder := ⟨0⟩

/-- `explicit Holder(T *ptr)` — takes ownership of `ptr`. -/
def Holder.ofPtr (p : Nat) : Holder := ⟨p⟩

/-- `valid()` — `ptr_ != nullptr`. -/
def Holder.valid (h : Holder) : Bool := h.ptr != 0

/-- `deallocate()` — calls `jvmti->Deallocate(ptr_)` when `valid()`.
The returned list is the sequence of handles passed to `Deallocate`. -/
def Holder.deallocate (h : Holder) : List Nat :=
  if h.valid then [h.ptr] else []

/-- `~Holder()` — the destructor runs `deallocate()`. -/
def Holder.destroy (h : Holder) : List Nat := h.deallocate

/-- `Holder(Holder &&other)` — move construction. In the constructor body
`ptr_` has already been initialized to `nullptr` by the default member
initializer, so the `deallocate()` call is a no-op; then `ptr_ = nullptr`
and `std::swap(ptr_, other.ptr_)`. Result: (constructed holder, `other`
afterwards, deallocation calls issued). -/
def Holder.moveConstruct (other : Holder) : Holder × Holder × List Nat :=
  let fresh : Holder := ⟨0⟩
  let calls := fresh.deallocate
  (⟨other.ptr⟩, ⟨fresh.ptr⟩, calls)

/-- `Holder &operator=(Holder &&other) = default` — the implicitly-defined
move assignment move-assigns each member; for the raw pointer member that
is a plain copy of `other.ptr_` into `this->ptr_`. The buffer previously
held by `this` is not deallocated and `other.ptr_` is not cleared.
Result: (target afterwards, source afterwards, deallocation calls issued). -/
def Holder.moveAssignDefault (_tgt other : Holder) : Holder × Holder × List Nat :=
  (⟨other.ptr⟩, other, [])

/-- The agent's process-wide mutable state: the statics
`jmethodID thread_start{0}` and `jfieldID thread_name_field{0}`. -/
structure AgentState where
  thread_start : Nat
  thread_name_field : Nat
  deriving DecidableEq

/-- The zero-initialized statics the agent starts with. -/
def initState : AgentState := ⟨0, 0⟩

/-- One class-load event together with the host's answers to the queries the
handler would make for this class: `sig` is the `GetClassSignature` result
(`none` on a failing return code), `startMethodId` and `nameFieldId` are the
`GetMethodID`/`GetFieldID` answers, and `watchOk` is whether
`SetFieldModificationWatch` succeeds. -/
structure ClassLoadEvent where
  klass : Nat
  sig : Option String
  startMethodId : Nat
  nameFieldId : Nat
  watchOk : Bool
  deriving DecidableEq

/-- Observable actions of the class-load handler: issuing the
`SetFieldModificationWatch(klass, field)` call, and the
"failed to attach field watcher" log line. -/
inductive CLEffect where
  | setWatch (klass field : Nat)
  | logWatchFail
  deriving DecidableEq

/-- The `ClassLoad` callback. Returns the updated statics and the effect
trace, or `none` when the execution reaches undefined behavior: on a
`GetClassSignature` failure, `getClassSignature` logs and returns a null
guard, and `std::string s(name.get())` then constructs a `std::string`
from a NULL `const char*`. -/
def ClassLoad (st : AgentState) (ev : ClassLoadEvent) :
    Option (AgentState × List CLEffect) :=
  match ev.sig with
  | none => none
  | some s =>
    if s = "Ljava/lang/Thread;" then
      some ({ thread_start := ev.startMethodId, thread_name_field := ev.nameFieldId },
        CLEffect.setWatch ev.klass ev.nameFieldId ::
          (if ev.watchOk then [] else [CLEffect.logWatchFail]))
    else
      some (st, [])

/-- Deliver a sequence of class-load events, threading the statics and
accumulating the effects; `none` if any handler invocation reaches
undefined behavior. -/
def runClassLoads (st : AgentState) :
    List ClassLoadEvent → Option (AgentState × List CLEffect)
  | [] => some (st, [])
  | ev :: rest =>
    match ClassLoad st ev with
    | none => none
    | some (st1, effs) =>
      match runClassLoads st1 rest with
      | none => none
      | some (st2, effs2) => some (st2, effs ++ effs2)

/-- Whether an effect is a watch registration. -/
def isSetWatch : CLEffect → Bool
  | CLEffect.setWatch _ _ => true
  | CLEffect.logWatchFail => false

/-- Number of watch registrations in an effect trace. -/
def countSetWatch : List CLEffect → Nat
  | [] => 0
  | e :: rest => (if isSetWatch e then 1 else 0) + countSetWatch rest

/-- Number of events whose resolved signature is the well-known thread
signature. -/
def matchingCount : List ClassLoadEvent → Nat
  | [] => 0
  | ev :: rest =>
    (if ev.sig = some "Ljava/lang/Thread;" then 1 else 0) + matchingCount rest

/-- Observable actions of the field-modification handler: decoding the new
value (`GetStringUTFChars`), releasing it (`ReleaseStringUTFChars`), the
"about to get started" notice, and invoking the stack capturer. -/
inductive FMEffect where
  | decode
  | release
  | notice (name : String)
  | capture
  deriving DecidableEq

/-- One field-modification event: the field identity delivered by the host
and the string the host decodes the new value to. -/
structure FieldModEvent where
  field : Nat
  decoded : String
  deriving DecidableEq

/-- The `OnFieldModification` callback: events for a field other than the
stored `thread_name_field` return immediately; otherwise the new value is
decoded, compared against `THREAD_TO_CATCH`, released, and on a match the
notice is printed and `printStackTrace` is invoked. -/
def OnFieldModification (st : AgentState) (ev : FieldModEvent) : List FMEffect :=
  if ev.field ≠ st.thread_name_field then
    []
  else
    let name := ev.decoded
    if name ≠ THREAD_TO_CATCH then
      [FMEffect.decode, FMEffect.release]
    else
      [FMEffect.decode, FMEffect.notice name, FMEffect.release, FMEffect.capture]

/-- Count occurrences of one effect in a field-modification trace. -/
def countFM (e : FMEffect) : List FMEffect → Nat
  | [] => 0
  | x :: rest => (if x = e then 1 else 0) + countFM e rest

/-- `MAX_FRAMES` from the source. -/
def MAX_FRAMES : Nat := 10

/-- One frame returned by `GetStackTrace`: its method handle and the host's
answer to `GetMethodDeclaringClass` for that method (`none` on failure, in
which case the local `jclass cls` is left indeterminate). -/
structure FrameData where
  methodId : Nat
  declClass : Option Nat
  deriving DecidableEq

/-- The host environment a capture queries. `threadName` is the
`GetThreadInfo` answer; `stackQuery start max` is the `GetStackTrace`
answer for those arguments; `classSigOf` and `methodNameOf` are the
`GetClassSignature`/`GetMethodName` answers per handle; `indeterminateCls`
is the garbage value read from the uninitialized `jclass cls` local when
`GetMethodDeclaringClass` has failed. -/
structure CaptureEnv where
  threadName : Option String
  stackQuery : Nat → Nat → Option (List FrameData)
  classSigOf : Nat → Option String
  methodNameOf : Nat → Option String
  indeterminateCls : Nat

/-- Observable output of `printStackTrace`: the section header, the
`GetStackTrace` request with its arguments, the "GetStackTrace failed" log,
the "frame skip. Failed to get classID" log, and one rendered
`<classSignature>#<methodName>` line per frame. -/
inductive CapEffect where
  | header (name : String)
  | requestFrames (start maxFrames : Nat)
  | logStackFail
  | logFrameSkip
  | frameLine (cls meth : String)
  deriving DecidableEq

/-- The body of the per-frame loop. When `GetMethodDeclaringClass` fails the
code prints "frame skip. Failed to get classID" but does not skip the
frame: it goes on to resolve the indeterminate `cls` local (modelled as the
environment-supplied garbage handle) and renders the line anyway. `none`
models reaching undefined behavior: `className.get()` or
`methodName.get()` is NULL and is inserted into `std::cerr` as a
`const char*` (there is no placeholder in the source). -/
def renderFrame (env : CaptureEnv) (f : FrameData) : Option (List CapEffect) :=
  match f.declClass with
  | some c =>
    match env.classSigOf c, env.methodNameOf f.methodId with
    | some cs, some mn => some [CapEffect.frameLine cs mn]
    | _, _ => none
  | none =>
    match env.classSigOf env.indeterminateCls, env.methodNameOf f.methodId with
    | some cs, some mn => some [CapEffect.logFrameSkip, CapEffect.frameLine cs mn]
    | _, _ => none

/-- Render all frames in the order supplied by the host. -/
def renderFrames (env : CaptureEnv) : List FrameData → Option (List CapEffect)
  | [] => some []
  | f :: rest =>
    match renderFrame env f, renderFrames env rest with
    | some out, some outs => some (out ++ outs)
    | _, _ => none

/-- The header: emitted only when `GetThreadInfo` succeeds; on failure it is
silently skipped (no log, no abort). -/
def headerPart (env : CaptureEnv) : List CapEffect :=
  match env.threadName with
  | some n => [CapEffect.header n]
  | none => []

/-- `printStackTrace`: print the header if the thread-info query succeeds,
then call `GetStackTrace(thread, 2, MAX_FRAMES, frames, count)`; on a
failing return code log "GetStackTrace failed" and return; otherwise render
each returned frame in host order. -/
def printStackTrace (env : CaptureEnv) : Option (List CapEffect) :=
  let hdr := headerPart env
  let req := [CapEffect.requestFrames 2 MAX_FRAMES]
  match env.stackQuery 2 MAX_FRAMES with
  | none => some (hdr ++ req ++ [CapEffect.logStackFail])
  | some frames =>
    match renderFrames env frames with
    | none => none
    | some lines => some (hdr ++ req ++ lines)

/-! ## Helper lemmas -/

/-- Watch registrations counted across a concatenation of effect traces. -/
theorem countSetWatch_append (a b : List CLEffect) :
    countSetWatch (a ++ b) = countSetWatch a + countSetWatch b := by
  induction a with
  | nil => simp [countSetWatch]
  | cons e rest ih => simp [countSetWatch, ih]; omega

/-- The trailing watch-failure log contributes no watch registration. -/
theorem countSetWatch_watchTail (b : Bool) :
    countSetWatch (if b then [] else [CLEffect.logWatchFail]) = 0 := by
  cases b <;> simp [countSetWatch, isSetWatch]

/-! ## C1 — arming idempotence -/

/-- A first matching class-load event (arms the watch on field `5`). -/
def evThreadA : ClassLoadEvent :=
  { klass := 1, sig := some "Ljava/lang/Thread;", startMethodId := 10,
    nameFieldId := 5, watchOk := true }

/-- A second matching class-load event (a re-entrant load of a class with
the same resolved signature, with field handle `7`). -/
def evThreadB : ClassLoadEvent :=
  { klass := 2, sig := some "Ljava/lang/Thread;", startMethodId := 11,
    nameFieldId := 7, watchOk := true }

/-- C1 (counterexample): a sequence of two class-load events that both
resolve to the well-known thread signature issues two watch registrations
and overwrites the stored method and field identities — the handler has no
already-armed guard, so it is not idempotent under repeated matching
loads. -/
theorem spec_C1_counterexample :
    runClassLoads initState [evThreadA, evThreadB] =
      some ({ thread_start := 11, thread_name_field := 7 },
        [CLEffect.setWatch 1 5, CLEffect.setWatch 2 7]) ∧
    countSetWatch [CLEffect.setWatch 1 5, CLEffect.setWatch 2 7] = 2 ∧
    ({ thread_start := 11, thread_name_field := 7 } : AgentState).thread_name_field ≠ 5 := by
  refine ⟨?_, by decide, by decide⟩
  decide

/-- C1 (amended): the class-load handler performs the arming actions on
every event whose resolved signature matches the well-known thread
signature — re-registering the watch and overwriting the stored identities
on each matching load — so the number of watch registrations equals the
number of matching events, and the watch is armed at most once only in
sequences that contain at most one matching event. -/
theorem spec_C1_amended (st : AgentState) (evs : List ClassLoadEvent)
    (h : ∀ ev ∈ evs, (ev.sig).isSome) :
    ∃ st2 effs, runClassLoads st evs = some (st2, effs) ∧
      countSetWatch effs = matchingCount evs := by
  induction evs generalizing st with
  | nil => exact ⟨st, [], rfl, rfl⟩
  | cons ev rest ih =>
    have hev : (ev.sig).isSome := h ev (List.mem_cons_self ev rest)
    have hrest : ∀ e ∈ rest, (e.sig).isSome :=
      fun e he => h e (List.mem_cons_of_mem ev he)
    obtain ⟨s, hs⟩ := Option.isSome_iff_exists.mp hev
    by_cases hmatch : s = "Ljava/lang/Thread;"
    · obtain ⟨st2, effs2, hrun, hcount⟩ :=
        ih { thread_start := ev.startMethodId, thread_name_field := ev.nameFieldId } hrest
      refine ⟨st2,
        (CLEffect.setWatch ev.klass ev.nameFieldId ::
          (if ev.watchOk then [] else [CLEffect.logWatchFail])) ++ effs2, ?_, ?_⟩
      · simp [runClassLoads, ClassLoad, hs, hmatch, hrun]
      · have h1 : countSetWatch
            (CLEffect.setWatch ev.klass ev.nameFieldId ::
              (if ev.watchOk then [] else [CLEffect.logWatchFail])) = 1 := by
          simp [countSetWatch, isSetWatch, countSetWatch_watchTail]
        rw [countSetWatch_append, h1, hcount]
        simp [matchingCount, hs, hmatch]
    · obtain ⟨st2, effs2, hrun, hcount⟩ := ih st hrest
      refine ⟨st2, [] ++ effs2, ?_, ?_⟩
      · simp [runClassLoads, ClassLoad, hs, hmatch, hrun]
      · rw [countSetWatch_append, hcount]
        simp [countSetWatch, matchingCount, hs, hmatch]

/-- C1 (witness for the amended theorem): evaluating the amended statement
on the concrete two-event sequence above. -/
theorem spec_C1_amended_witness :
    ∃ st2 effs, runClassLoads initState [evThreadA, evThreadB] = some (st2, effs) ∧
      countSetWatch effs = matchingCount [evThreadA, evThreadB] :=
  spec_C1_amended initState [evThreadA, evThreadB] (by decide)

/-! ## C2 — resource-guard release discipline -/

/-- C2 (code bug): the defaulted move assignment copies the raw pointer.
After `a = std::move(b)` with `a` owning buffer `1` and `b` owning buffer
`2`, the source guard is still non-empty, and destroying both guards
deallocates buffer `2` twice while buffer `1` is never deallocated —
contradicting the exactly-once release contract. -/
theorem spec_C2_double_free :
    (Holder.moveAssignDefault (Holder.ofPtr 1) (Holder.ofPtr 2)).2.1.valid = true ∧
    ((Holder.moveAssignDefault (Holder.ofPtr 1) (Holder.ofPtr 2)).2.2 ++
     (Holder.moveAssignDefault (Holder.ofPtr 1) (Holder.ofPtr 2)).1.destroy ++
     (Holder.moveAssignDefault (Holder.ofPtr 1) (Holder.ofPtr 2)).2.1.destroy) = [2, 2] ∧
    List.count 2 ((Holder.moveAssignDefault (Holder.ofPtr 1) (Holder.ofPtr 2)).2.2 ++
     (Holder.moveAssignDefault (Holder.ofPtr 1) (Holder.ofPtr 2)).1.destroy ++
     (Holder.moveAssignDefault (Holder.ofPtr 1) (Holder.ofPtr 2)).2.1.destroy) = 2 ∧
    List.count 1 ((Holder.moveAssignDefault (Holder.ofPtr 1) (Holder.ofPtr 2)).2.2 ++
     (Holder.moveAssignDefault (Holder.ofPtr 1) (Holder.ofPtr 2)).1.destroy ++
     (Holder.moveAssignDefault (Holder.ofPtr 1) (Holder.ofPtr 2)).2.1.destroy) = 0 := by
  decide

/-! ## C3, C4 — behavior on a failing signature resolution -/

/-- C3 (code bug): a class-load event whose `GetClassSignature` query fails
drives the handler into undefined behavior (`std::string` constructed from
a NULL `const char*`) instead of degrading gracefully — the execution is
modelled as `none`. -/
theorem spec_C3_crash_on_query_failure :
    ClassLoad initState
      { klass := 3, sig := none, startMethodId := 0, nameFieldId := 0, watchOk := true } =
      none := rfl

/-- C4 (code bug): on a failed signature resolution the handler does not
ignore the event (it does not return with the state unchanged and no
effects); it reaches undefined behavior before the signature comparison. -/
theorem spec_C4_no_graceful_ignore :
    ClassLoad initState
      { klass := 4, sig := none, startMethodId := 0, nameFieldId := 0, watchOk := false } =
      none ∧
    ¬ (ClassLoad initState
        { klass := 4, sig := none, startMethodId := 0, nameFieldId := 0, watchOk := false } =
        some (initState, [])) := by
  decide

/-! ## C10 — exact signature match -/

/-- C10: a class-load event whose signature resolves to anything other than
the exact string `"Ljava/lang/Thread;"` (including signatures of
subclasses) leaves the stored method identity, the stored field identity
and the watch state unchanged and issues no effects, so arming is
triggered only by the exact well-known signature. -/
theorem spec_C10_other_signature_ignored (st : AgentState) (ev : ClassLoadEvent)
    (s : String) (hs : ev.sig = some s) (hne : s ≠ "Ljava/lang/Thread;") :
    ClassLoad st ev = some (st, []) := by
  simp [ClassLoad, hs, hne]

/-- C10 (witness): a load of a thread subclass, resolved to the signature
`"Lworker/PoolThread;"`, leaves the initial state untouched. -/
theorem spec_C10_witness :
    (({ klass := 9, sig := some "Lworker/PoolThread;", startMethodId := 1,
        nameFieldId := 2, watchOk := true } : ClassLoadEvent).sig =
      some "Lworker/PoolThread;") ∧
    ("Lworker/PoolThread;" ≠ "Ljava/lang/Thread;") ∧
    ClassLoad initState
      { klass := 9, sig := some "Lworker/PoolThread;", startMethodId := 1,
        nameFieldId := 2, watchOk := true } = some (initState, []) :=
  ⟨rfl, by decide,
    spec_C10_other_signature_ignored initState
      { klass := 9, sig := some "Lworker/PoolThread;", startMethodId := 1,
        nameFieldId := 2, watchOk := true } "Lworker/PoolThread;" rfl (by decide)⟩

/-! ## C5, C6, C9 — field-modification filtering and release discipline -/

/-- C5: a field-modification event whose decoded string differs from the
target entity name (exact, case-sensitive comparison via `strcmp`) produces
no notice line and does not invoke the stack capturer, whatever the agent
state. -/
theorem spec_C5_mismatch_no_capture (st : AgentState) (ev : FieldModEvent)
    (h : ev.decoded ≠ THREAD_TO_CATCH) :
    FMEffect.capture ∉ OnFieldModification st ev ∧
    ∀ n, FMEffect.notice n ∉ OnFieldModification st ev := by
  unfold OnFieldModification
  split
  · simp
  · simp [h]

/-- C5 (witness): a mismatching value on the armed field is decoded,
released, and produces neither a notice nor a capture. -/
theorem spec_C5_witness :
    ("OtherThread" ≠ THREAD_TO_CATCH) ∧
    (FMEffect.capture ∉
        OnFieldModification initState { field := 0, decoded := "OtherThread" } ∧
      ∀ n, FMEffect.notice n ∉
        OnFieldModification initState { field := 0, decoded := "OtherThread" }) :=
  ⟨by decide,
    spec_C5_mismatch_no_capture initState { field := 0, decoded := "OtherThread" }
      (by decide)⟩

/-- C6: a field-modification event whose field identity differs from the
stored `thread_name_field` — in particular any event with a non-null field
handle delivered before arming, while the static is still `0` — makes the
handler return immediately: no decode, no release, no notice, no capture. -/
theorem spec_C6_filter (st : AgentState) (ev : FieldModEvent)
    (h : ev.field ≠ st.thread_name_field) :
    OnFieldModification st ev = [] := by
  unfold OnFieldModification
  rw [if_pos h]

/-- C6 (witness): before arming (`thread_name_field = 0`), an event for
field `1` — even one carrying the target name — produces no effects. -/
theorem spec_C6_witness :
    ((({ field := 1, decoded := "HighResTimer" } : FieldModEvent).field ≠
        initState.thread_name_field) ∧
      OnFieldModification initState { field := 1, decoded := "HighResTimer" } = []) :=
  ⟨by decide,
    spec_C6_filter initState { field := 1, decoded := "HighResTimer" } (by decide)⟩

/-- C9: every handler execution that reaches the decode step (i.e. whose
field identity equals the stored one) decodes the string exactly once and
releases it exactly once before returning, on the mismatch path and on the
match path alike. -/
theorem spec_C9_release_once (st : AgentState) (ev : FieldModEvent)
    (h : ev.field = st.thread_name_field) :
    countFM FMEffect.release (OnFieldModification st ev) = 1 ∧
    countFM FMEffect.decode (OnFieldModification st ev) = 1 := by
  unfold OnFieldModification
  rw [if_neg (by simp [h])]
  by_cases hname : ev.decoded ≠ THREAD_TO_CATCH
  · rw [if_pos hname]
    simp [countFM]
  · rw [if_neg hname]
    simp [countFM]

/-- C9 (witness): a matching modification of the armed field releases the
decoded handle exactly once. -/
theorem spec_C9_witness :
    ((({ field := 0, decoded := "HighResTimer" } : FieldModEvent).field =
        initState.thread_name_field) ∧
      (countFM FMEffect.release
          (OnFieldModification initState { field := 0, decoded := "HighResTimer" }) = 1 ∧
        countFM FMEffect.decode
          (OnFieldModification initState { field := 0, decoded := "HighResTimer" }) = 1)) :=
  ⟨rfl, spec_C9_release_once initState { field := 0, decoded := "HighResTimer" } rfl⟩

/-! ## C7, C8 — stack capture -/

/-- `headerPart` contains no frame request. -/
theorem headerPart_no_requestFrames (env : CaptureEnv) (s m : Nat) :
    CapEffect.requestFrames s m ∉ headerPart env := by
  unfold headerPart
  split <;> simp

/-- `headerPart` contains no frame line. -/
theorem headerPart_no_frameLine (env : CaptureEnv) (c mn : String) :
    CapEffect.frameLine c mn ∉ headerPart env := by
  unfold headerPart
  split <;> simp

/-- A rendered frame contains no frame request. -/
theorem renderFrame_no_requestFrames (env : CaptureEnv) (f : FrameData)
    (out : List CapEffect) (h : renderFrame env f = some out) (s m : Nat) :
    CapEffect.requestFrames s m ∉ out := by
  unfold renderFrame at h
  split at h <;> split at h <;> cases h <;> simp

/-- A rendered frame list contains no frame request. -/
theorem renderFrames_no_requestFrames (env : CaptureEnv) (fs : List FrameData)
    (out : List CapEffect) (h : renderFrames env fs = some out) (s m : Nat) :
    CapEffect.requestFrames s m ∉ out := by
  induction fs generalizing out with
  | nil =>
    unfold renderFrames at h
    simp_all
  | cons f rest ih =>
    unfold renderFrames at h
    split at h
    · rename_i o os ho hos
      cases h
      intro hmem
      rcases List.mem_append.mp hmem with hm | hm
      · exact renderFrame_no_requestFrames env f o ho s m hm
      · exact ih os hos hm
    · exact absurd h (by simp)

/-- C7: every capture issues exactly the frame request
`GetStackTrace(thread, 2, MAX_FRAMES)` with `MAX_FRAMES = 10` (so rendered
frame 0 is the third actual frame from the top of the stack), and when that
query fails the capture aborts early: the output is the header part (if
any) followed by the request and the failure log, with no frame line. -/
theorem spec_C7_capture_request (env : CaptureEnv) (r : List CapEffect)
    (h : printStackTrace env = some r) :
    MAX_FRAMES = 10 ∧
    (∀ s m, CapEffect.requestFrames s m ∈ r → s = 2 ∧ m = 10) ∧
    (env.stackQuery 2 10 = none →
      r = headerPart env ++
        [CapEffect.requestFrames 2 10, CapEffect.logStackFail]) := by
  refine ⟨rfl, ?_, ?_⟩
  · intro s m hmem
    unfold printStackTrace at h
    split at h
    · cases h
      rcases List.mem_append.mp hmem with hm | hm
      · rcases List.mem_append.mp hm with hm1 | hm1
        · exact absurd hm1 (headerPart_no_requestFrames env s m)
        · simp only [List.mem_singleton] at hm1
          cases hm1
          exact ⟨rfl, rfl⟩
      · simp at hm
    · rename_i frames hq
      split at h
      · exact absurd h (by simp)
      · rename_i lines hlines
        cases h
        rcases List.mem_append.mp hmem with hm | hm
        · rcases List.mem_append.mp hm with hm1 | hm1
          · exact absurd hm1 (headerPart_no_requestFrames env s m)
          · simp only [List.mem_singleton] at hm1
            cases hm1
            exact ⟨rfl, rfl⟩
        · exact absurd hm (renderFrames_no_requestFrames env frames lines hlines s m)
  · intro hfail
    unfold printStackTrace at h
    rw [show (2 : Nat) = 2 from rfl] at hfail
    split at h
    · cases h
      simp [MAX_FRAMES]
    · rename_i frames hq
      rw [show MAX_FRAMES = 10 from rfl] at hq
      rw [hfail] at hq
      cases hq

/-- The environment of the C7 witness: the thread-info query fails and the
stack query fails for every argument pair. -/
def envC7 : CaptureEnv :=
  { threadName := none
    stackQuery := fun _ _ => none
    classSigOf := fun _ => none
    methodNameOf := fun _ => none
    indeterminateCls := 0 }

/-- C7 (witness): on a failing stack query the concrete capture consists of
the request and the failure log only. -/
theorem spec_C7_witness :
    MAX_FRAMES = 10 ∧
    (∀ s m, CapEffect.requestFrames s m ∈
        ([CapEffect.requestFrames 2 10, CapEffect.logStackFail] : List CapEffect) →
      s = 2 ∧ m = 10) ∧
    (envC7.stackQuery 2 10 = none →
      ([CapEffect.requestFrames 2 10, CapEffect.logStackFail] : List CapEffect) =
        headerPart envC7 ++
          [CapEffect.requestFrames 2 10, CapEffect.logStackFail]) :=
  spec_C7_capture_request envC7
    [CapEffect.requestFrames 2 10, CapEffect.logStackFail] rfl

/-- The environment of the first C8 scenario: one frame whose
`GetMethodDeclaringClass` query fails; the indeterminate `cls` local holds
the garbage handle `99`, whose signature the host happens to resolve. -/
def envC8a : CaptureEnv :=
  { threadName := some "main"
    stackQuery := fun s m =>
      if s = 2 ∧ m = 10 then some [{ methodId := 4, declClass := none }] else none
    classSigOf := fun c => if c = 99 then some "Lgarbage;" else none
    methodNameOf := fun m => if m = 4 then some "run" else none
    indeterminateCls := 99 }

/-- The environment of the second C8 scenario: one frame whose declaring
class resolves, but whose `GetClassSignature` query fails for every
handle. -/
def envC8b : CaptureEnv :=
  { threadName := some "main"
    stackQuery := fun s m =>
      if s = 2 ∧ m = 10 then some [{ methodId := 4, declClass := some 7 }] else none
    classSigOf := fun _ => none
    methodNameOf := fun m => if m = 4 then some "run" else none
    indeterminateCls := 0 }

/-- C8 (code bug): when `GetMethodDeclaringClass` fails for a frame, the
code prints "frame skip. Failed to get classID" but does not continue to
the next frame — the same frame is still rendered, from the uninitialized
`jclass` local (first scenario: the garbage handle's signature appears in
the frame line right after the skip log); and when a class-signature or
method-name resolution fails there is no placeholder — the NULL
`const char*` is inserted into the stream, which is undefined behavior
(second scenario evaluates to `none`). -/
theorem spec_C8_frame_not_skipped :
    printStackTrace envC8a =
      some [CapEffect.header "main", CapEffect.requestFrames 2 10,
        CapEffect.logFrameSkip, CapEffect.frameLine "Lgarbage;" "run"] ∧
    printStackTrace envC8b = none := by
  constructor
  · rfl
  · rfl

end ThreadStartCatch
